import Mathlib

/-!
Shallow embedding of the TT-online backend (repository MichiMei/tt-online,
crate TT_Backend).  The definitions below are translated from
`src/TT_Backend/src/server.rs` (the orchestration actor and its handlers),
`src/TT_Backend/src/server/messages.rs` (the wire codec) and
`src/TT_Backend/src/server/networking.rs` (the host read loop).

The generic JSON value parsing/serialization primitive (serde_json) is an
external collaborator per the spec; messages are therefore modelled at the
JSON *value* level: `Json` stands for `serde_json::Value`, and the
string-to-value / value-to-string bridge (which serde_json guarantees to be
an exact round trip) is taken as the identity.
-/

/-- Model of `serde_json::Value` restricted to the shapes the codec touches:
null, booleans, (integer) numbers, strings, arrays and objects.  Objects are
association lists; serde_json objects have unique keys. -/
inductive Json where
  | null : Json
  | bool (b : Bool) : Json
  | int (n : Int) : Json
  | str (s : String) : Json
  | arr (elems : List Json) : Json
  | obj (fields : List (String × Json)) : Json
deriving Repr, BEq

/-- `json[key]` on a `serde_json::Value`: field lookup on an object, yielding
`Null` when the key is absent or the value is not an object. -/
def Json.index (j : Json) (key : String) : Json :=
  match j with
  | Json.obj fields =>
    match fields.find? (fun kv => kv.1 == key) with
    | some kv => kv.2
    | none => Json.null
  | _ => Json.null

/-- `Value::is_null`. -/
def Json.is_null (j : Json) : Bool :=
  match j with
  | Json.null => true
  | _ => false

/-- `Value::as_str`: `Some` exactly on strings. -/
def Json.as_str (j : Json) : Option String :=
  match j with
  | Json.str s => some s
  | _ => none

/-- `Value::as_i64`: `Some` exactly on (integer) numbers. -/
def Json.as_i64 (j : Json) : Option Int :=
  match j with
  | Json.int n => some n
  | _ => none

/-- `json[key] = v` starting from `json!(null)`: serde_json auto-vivifies a
null value into an object on indexed assignment, so the encoder's sequence of
assignments builds an object whose fields are listed in assignment order. -/
def Json.setField (j : Json) (key : String) (v : Json) : Json :=
  match j with
  | Json.obj fields => Json.obj (fields ++ [(key, v)])
  | _ => Json.obj [(key, v)]

/-- The `value_i64 as i32` wrapping cast in `get_i32` (messages.rs). -/
def i64_as_i32 (n : Int) : Int :=
  (n + 2 ^ 31) % 2 ^ 32 - 2 ^ 31

/-- `get_string` (messages.rs): read `json[key]`; `None` if the field is
missing (null) or not a string. -/
def get_string (json : Json) (key : String) : Option String :=
  let value := json.index key
  if value.is_null then none
  else
    match value.as_str with
    | none => none
    | some v => some v

/-- `get_i32` (messages.rs): read `json[key]`; `None` if the field is missing
(null) or not an integer; otherwise the value cast `as i32`. -/
def get_i32 (json : Json) (key : String) : Option Int :=
  let value := json.index key
  if value.is_null then none
  else
    match value.as_i64 with
    | none => none
    | some v => some (i64_as_i32 v)

/-- `HostMessage` (messages.rs): every possible message sent by the host.
`state_id` is an `i32`, modelled as `Int`. -/
inductive HostMessage where
  | Disconnect (reason : String)
  | Update (state_id : Int) (content : String)
  | ChangeState (state_id : Int) (content : String)
deriving Repr, DecidableEq

/-- `BackendMessage` (messages.rs): every possible message sent by the
backend. -/
inductive BackendMessage where
  | ClientConnected (name : String) (address : String)
  | ClientDisconnected (name : String) (address : String) (reason : String)
  | Disconnect (reason : String)
  | Input (state_id : Int) (input : String) (name : String) (address : String)
  | Update (state_id : Int) (content : String)
  | ChangeState (state_id : Int) (content : String)
deriving Repr, DecidableEq

/-- `parse_host_msg` (messages.rs), at the JSON value level: dispatch on the
string field `type`; unknown discriminators and missing or wrongly-typed
required fields yield `None`. -/
def parse_host_msg (json : Json) : Option HostMessage :=
  match get_string json "type" with
  | none => none
  | some type_str =>
    if type_str = "Disconnecting" then
      match get_string json "reason" with
      | none => none
      | some reason => some (HostMessage.Disconnect reason)
    else if type_str = "Update" then
      match get_i32 json "state_id" with
      | none => none
      | some state_id =>
        match get_string json "content" with
        | none => none
        | some content => some (HostMessage.Update state_id content)
    else if type_str = "ChangeState" then
      match get_i32 json "state_id" with
      | none => none
      | some state_id =>
        match get_string json "content" with
        | none => none
        | some content => some (HostMessage.ChangeState state_id content)
    else
      none

/-- `encode_backend_msg` (messages.rs), at the JSON value level: build the
tagged object field by field exactly as the source's indexed assignments do. -/
def encode_backend_msg (msg : BackendMessage) : Json :=
  match msg with
  | BackendMessage.ClientConnected name address =>
    (((Json.null.setField "type" (Json.str "ClientConnected")).setField
        "name" (Json.str name)).setField "address" (Json.str address))
  | BackendMessage.ClientDisconnected name address reason =>
    ((((Json.null.setField "type" (Json.str "ClientDisconnected")).setField
        "name" (Json.str name)).setField "address" (Json.str address)).setField
        "reason" (Json.str reason))
  | BackendMessage.Disconnect reason =>
    ((Json.null.setField "type" (Json.str "Disconnecting")).setField
        "reason" (Json.str reason))
  | BackendMessage.Input state_id input name address =>
    (((((Json.null.setField "type" (Json.str "Input")).setField
        "state_id" (Json.int state_id)).setField "input" (Json.str input)).setField
        "name" (Json.str name)).setField "address" (Json.str address))
  | BackendMessage.Update state_id content =>
    (((Json.null.setField "type" (Json.str "Update")).setField
        "state_id" (Json.int state_id)).setField "content" (Json.str content))
  | BackendMessage.ChangeState state_id content =>
    (((Json.null.setField "type" (Json.str "ChangeState")).setField
        "state_id" (Json.int state_id)).setField "content" (Json.str content))

/-!
The orchestration actor (`main_task` and its handlers in server.rs).

Endpoint addresses (`SocketAddr`) are modelled as strings.  Each handler's
externally visible I/O — websocket sends/closes, TCP writes/shutdowns, task
spawns — is recorded as a list of `Effect`s in the order the source performs
them.  A send is an *attempt*; whether it succeeds is decided by the
environment, so each fallible send whose outcome the handler branches on
carries a boolean outcome inside the triggering event.
-/

/-- A `tungstenite::Message` received from a client: the actor only
distinguishes text messages (`msg.is_text()`; `msg.to_string()` of a text
message is its content) from everything else. -/
inductive WsMessage where
  | text (content : String)
  | nonText
deriving Repr, DecidableEq

/-- Externally visible effects of one handler invocation, in program order. -/
inductive Effect where
  /-- `ws_write.send(Message::Text(text))` to the client at `address`. -/
  | clientSend (address : String) (text : String)
  /-- `ws_write.close()` of the client at `address`. -/
  | clientClose (address : String)
  /-- `write_to_socket(write, text)` on the host-side TCP write half whose
  peer is `address` (length prefix plus UTF-8 bytes). -/
  | hostWrite (address : String) (text : String)
  /-- `write.shutdown()` of the host-side TCP write half whose peer is
  `address`. -/
  | hostShutdown (address : String)
  /-- `tokio::spawn(websocket_listen(..))` for the client at `address`. -/
  | spawnClientReader (address : String)
  /-- `tokio::spawn(tcp_listen(..))` for the host at `address`. -/
  | spawnHostReader (address : String)
  /-- `channel.send(InternalMessage::ClientClosed{address})` from inside a
  handler.  No handler in server.rs ever performs this; the constructor
  exists so that its absence is expressible. -/
  | emitClientClosedEvent (address : String)
deriving Repr, DecidableEq

/-- `InternalMessage` (server.rs) together with the environment outcomes the
corresponding handler branches on.  `handshake_ok` is the result of the
websocket upgrade, `send_ok` the result of the initial-state send, and
`send_fails` gives each per-client send outcome during a broadcast. -/
inductive Event where
  | clientConnected (address : String) (handshake_ok : Bool) (send_ok : Bool)
  | clientClosed (address : String)
  | hostConnected (address : String) (send_ok : Bool)
  | hostClosed (address : String)
  | clientInput (address : String) (msg : WsMessage)
  | hostUpdate (address : String) (msg : String) (send_fails : String → Bool)
  | hostChangeState (address : String) (msg : String) (send_fails : String → Bool)

/-- The mutable state owned by `main_task`: the client registry (a
`HashMap` keyed by address, modelled as its list of keys), the last
broadcast state, and the single host slot (address of the occupant). -/
structure ServerState where
  clients : List String
  state : Option String
  host : Option String
deriving Repr, DecidableEq

/-- `main_task`'s initializers (server.rs lines 56-58): empty registry,
`state = Some("DUMMY")`, no host. -/
def main_task_initial_state : ServerState :=
  { clients := [], state := some "DUMMY", host := none }

/-- `HashMap::insert` on the registry, projected to its key set. -/
def registry_insert (address : String) (clients : List String) : List String :=
  if address ∈ clients then clients else clients ++ [address]

/-- `handle_client_connected` (server.rs): upgrade to websocket (failure:
return); if `state` is set, send it to the new client (failure: close the
websocket and return without registering); insert the write half into the
registry; spawn the client's reader. -/
def handle_client_connected (clients : List String) (state : Option String)
    (address : String) (handshake_ok : Bool) (send_ok : Bool) :
    List String × List Effect :=
  if handshake_ok then
    match state with
    | some s =>
      if send_ok then
        (registry_insert address clients,
         [Effect.clientSend address s, Effect.spawnClientReader address])
      else
        (clients, [Effect.clientSend address s, Effect.clientClose address])
    | none =>
      (registry_insert address clients, [Effect.spawnClientReader address])
  else
    (clients, [])

/-- `handle_client_closed` (server.rs): remove the address from the registry
and close the removed write half; warn and do nothing if it is unknown. -/
def handle_client_closed (clients : List String) (address : String) :
    List String × List Effect :=
  if address ∈ clients then
    (clients.erase address, [Effect.clientClose address])
  else
    (clients, [])

/-- `handle_host_connected` (server.rs): split the stream; if `state` is set,
write it to the new host (failure: shut the new connection down and return
with the slot untouched); if a host already occupies the slot, shut its write
half down and clear the slot; spawn the new host's reader; install the new
host. -/
def handle_host_connected (state : Option String) (host : Option String)
    (address : String) (send_ok : Bool) : Option String × List Effect :=
  match state with
  | some s =>
    if send_ok then
      match host with
      | some old =>
        (some address,
         [Effect.hostWrite address s, Effect.hostShutdown old,
          Effect.spawnHostReader address])
      | none =>
        (some address,
         [Effect.hostWrite address s, Effect.spawnHostReader address])
    else
      (host, [Effect.hostWrite address s, Effect.hostShutdown address])
  | none =>
    match host with
    | some old =>
      (some address, [Effect.hostShutdown old, Effect.spawnHostReader address])
    | none =>
      (some address, [Effect.spawnHostReader address])

/-- `handle_host_closed` (server.rs): if a host is present and the event's
address equals the current host's address, shut its write half down and empty
the slot; otherwise do nothing. -/
def handle_host_closed (host : Option String) (address : String) :
    Option String × List Effect :=
  match host with
  | some current_address =>
    if address = current_address then
      (none, [Effect.hostShutdown address])
    else
      (host, [])
  | none => (host, [])

/-- `handle_client_input` (server.rs): ignore the input unless the sender is
registered, the message is text, and a host is present; then write the raw
text (`msg.to_string()`) to the host.  A write failure is only logged. -/
def handle_client_input (host : Option String) (clients : List String)
    (address : String) (msg : WsMessage) : List Effect :=
  if address ∈ clients then
    match msg with
    | WsMessage.text content =>
      match host with
      | some h => [Effect.hostWrite h content]
      | none => []
    | WsMessage.nonText => []
  else
    []

/-- `write_to_all_clients` (server.rs): iterate the registry and send the
text to each client; both the `Ok` arm and the `Err` arm of each send fall
through to the next client (the failure is only logged), so the emitted
attempts do not depend on `send_fails`. -/
def write_to_all_clients (clients : List String) (send_fails : String → Bool)
    (msg : String) : List Effect :=
  match clients with
  | [] => []
  | cli_addr :: rest =>
    if send_fails cli_addr then
      Effect.clientSend cli_addr msg :: write_to_all_clients rest send_fails msg
    else
      Effect.clientSend cli_addr msg :: write_to_all_clients rest send_fails msg

/-- `handle_host_update` (server.rs): ignore the update unless it comes from
the current host; otherwise broadcast it.  `last_state` is not touched. -/
def handle_host_update (host : Option String) (clients : List String)
    (address : String) (msg : String) (send_fails : String → Bool) :
    List Effect :=
  match host with
  | some current =>
    if current = address then write_to_all_clients clients send_fails msg
    else []
  | none => []

/-- `handle_host_change_state` (server.rs): ignore the event unless it comes
from the current host; otherwise overwrite `state` with the payload and
broadcast it. -/
def handle_host_change_state (host : Option String) (clients : List String)
    (state : Option String) (address : String) (msg : String)
    (send_fails : String → Bool) : Option String × List Effect :=
  match host with
  | some current =>
    if current = address then
      (some msg, write_to_all_clients clients send_fails msg)
    else
      (state, [])
  | none => (state, [])

/-- One iteration of `main_task`'s event loop: dispatch the received
`InternalMessage` to its handler and return the updated state together with
the handler's actions. -/
def step (st : ServerState) (e : Event) : ServerState × List Effect :=
  match e with
  | Event.clientConnected address handshake_ok send_ok =>
    let r := handle_client_connected st.clients st.state address handshake_ok send_ok
    ({ st with clients := r.1 }, r.2)
  | Event.clientClosed address =>
    let r := handle_client_closed st.clients address
    ({ st with clients := r.1 }, r.2)
  | Event.hostConnected address send_ok =>
    let r := handle_host_connected st.state st.host address send_ok
    ({ st with host := r.1 }, r.2)
  | Event.hostClosed address =>
    let r := handle_host_closed st.host address
    ({ st with host := r.1 }, r.2)
  | Event.clientInput address msg =>
    (st, handle_client_input st.host st.clients address msg)
  | Event.hostUpdate address msg send_fails =>
    (st, handle_host_update st.host st.clients address msg send_fails)
  | Event.hostChangeState address msg send_fails =>
    let r := handle_host_change_state st.host st.clients st.state address msg send_fails
    ({ st with state := r.1 }, r.2)

/-- Run the event loop over a list of queued events, concatenating the
actions of every step. -/
def run (st : ServerState) : List Event → ServerState × List Effect
  | [] => (st, [])
  | e :: rest =>
    let r := step st e
    let r2 := run r.1 rest
    (r2.1, r.2 ++ r2.2)

/-!
The host-side read loop `host_get_next_json` (networking.rs): read a
length-prefixed frame, decode it to UTF-8, parse the JSON, parse the
`HostMessage`.  The inbound byte stream is modelled as the list of outcomes
of successive frame reads.
-/

/-- Outcome of reading one length-prefixed frame from the host's TCP read
half: the peer reset the connection; the read, the UTF-8 decoding or the
JSON parsing failed (the error is logged and the loop continues); or a JSON
value was obtained. -/
inductive WireItem where
  | reset
  | badBytes
  | frame (j : Json)

/-- `host_get_next_json` (networking.rs): loop until a frame parses as a
`HostMessage` (returned together with the unconsumed remainder of the
stream) or the connection is reset (`none`, upon which the caller
`host_socket_reader` closes the connection).  Unreadable, undecodable or
unparsable frames are skipped. -/
def host_get_next_json : List WireItem → Option (HostMessage × List WireItem)
  | [] => none
  | WireItem.reset :: _ => none
  | WireItem.badBytes :: rest => host_get_next_json rest
  | WireItem.frame j :: rest =>
    match parse_host_msg j with
    | none => host_get_next_json rest
    | some m => some (m, rest)

/-!
Helper lemmas shared by the claim theorems.
-/

theorem i64_as_i32_eq_self (n : Int) (h1 : -(2 ^ 31) ≤ n) (h2 : n < 2 ^ 31) :
    i64_as_i32 n = n := by
  unfold i64_as_i32
  have hlo : (0 : Int) ≤ n + 2 ^ 31 := by omega
  have hhi : n + 2 ^ 31 < 2 ^ 32 := by omega
  rw [Int.emod_eq_of_lt hlo hhi]
  omega

/-- The broadcast loop's effects are one send attempt per registered client,
in registry order, whatever the individual send outcomes are (both arms of
the source's `match` on the send result fall through to the next client). -/
theorem write_to_all_clients_eq_map (clients : List String)
    (send_fails : String → Bool) (msg : String) :
    write_to_all_clients clients send_fails msg =
      clients.map (fun c => Effect.clientSend c msg) := by
  induction clients with
  | nil => rfl
  | cons a rest ih =>
    unfold write_to_all_clients
    by_cases hfa : send_fails a
    · simp [hfa, ih]
    · simp [hfa, ih]

/-- Projection of `handle_host_connected` to the host slot when a state is
present: a successful initial-state send installs the new address, a failed
one leaves the slot untouched. -/
theorem handle_host_connected_host (s : String) (host : Option String)
    (address : String) (send_ok : Bool) :
    (handle_host_connected (some s) host address send_ok).1 =
      if send_ok then some address else host := by
  cases send_ok <;> cases host <;> rfl


/-!
Claim theorems.
-/

/-- C3 (code evaluation): `main_task` initializes `state` to
`Some("DUMMY")` (server.rs line 57), so the very first client — registering
before any ChangeState has been accepted from a host — IS sent an initial
state message, namely the placeholder text `"DUMMY"`.  This contradicts the
spec's Scenario A ("receives no initial state message, since last_state is
unset"), and the placeholder value shows the initializer is a slip. -/
theorem initial_client_receives_dummy_state :
    step main_task_initial_state (Event.clientConnected "a" true true) =
      ({ clients := ["a"], state := some "DUMMY", host := none },
       [Effect.clientSend "a" "DUMMY", Effect.spawnClientReader "a"]) ∧
    Effect.clientSend "a" "DUMMY" ∈
      (step main_task_initial_state (Event.clientConnected "a" true true)).2 := by
  decide

/-- C6: during a broadcast, a send failure to one client `C` does not
prevent the message from being sent to any other registered client `c`: the
loop's send attempt for `c` is emitted whatever the outcomes are, and the
whole effect sequence is the same as it would be if `C`'s send succeeded —
one send per registry entry, in registry order. -/
theorem broadcast_isolation (clients : List String) (C : String)
    (send_fails : String → Bool) (_hC : send_fails C = true) (msg : String)
    (c : String) (hc : c ∈ clients) (_hne : c ≠ C) :
    Effect.clientSend c msg ∈ write_to_all_clients clients send_fails msg ∧
    write_to_all_clients clients send_fails msg =
      write_to_all_clients clients (fun a => if a = C then false else send_fails a) msg ∧
    write_to_all_clients clients send_fails msg =
      clients.map (fun a => Effect.clientSend a msg) := by
  refine ⟨?_, ?_, write_to_all_clients_eq_map clients send_fails msg⟩
  · rw [write_to_all_clients_eq_map]
    exact List.mem_map.mpr ⟨c, hc, rfl⟩
  · rw [write_to_all_clients_eq_map, write_to_all_clients_eq_map]

/-- Witness for C6 at a concrete registry: client `"a"` fails, client `"b"`
still gets its send. -/
theorem broadcast_isolation_witness :
    Effect.clientSend "b" "m" ∈
      write_to_all_clients ["a", "b"] (fun c => c == "a") "m" :=
  (broadcast_isolation ["a", "b"] "a" (fun c => c == "a") (by decide) "m" "b"
    (by decide) (by decide)).1

/-- C8: a `HostClosed` event whose address differs from the current host's
address (or arriving while no host is present) mutates nothing: the whole
server state — host slot, client registry and `last_state` — is returned
unchanged and no effect is performed. -/
theorem stale_host_close_noop (st : ServerState) (A : String)
    (h : st.host = none ∨ ∃ B, st.host = some B ∧ B ≠ A) :
    step st (Event.hostClosed A) = (st, []) := by
  obtain ⟨clients, state, host⟩ := st
  rcases h with h0 | ⟨B, hB, hne⟩
  · simp only at h0
    subst h0
    rfl
  · simp only at hB
    subst hB
    have hne2 : A ≠ B := fun hAB => hne hAB.symm
    simp [step, handle_host_closed, hne2]

/-- Witness for C8: closing host `"A"` while host `"B"` is current is a
no-op. -/
theorem stale_host_close_noop_witness :
    step { clients := ["c"], state := some "DUMMY", host := some "B" }
        (Event.hostClosed "A") =
      ({ clients := ["c"], state := some "DUMMY", host := some "B" }, []) :=
  stale_host_close_noop _ "A" (Or.inr ⟨"B", rfl, by decide⟩)

/-- C10: encoding a host-bound backend message and parsing it back as a host
message round-trips, for every `i32` `state_id` and all strings `content`
and `reason` (the serde_json string/value bridge is an exact round trip and
is modelled as the identity; the `as i32` cast in `get_i32` is the identity
on the `i32` range). -/
theorem encode_parse_roundtrip (state_id : Int) (content reason : String)
    (h1 : -(2 ^ 31) ≤ state_id) (h2 : state_id < 2 ^ 31) :
    parse_host_msg (encode_backend_msg (BackendMessage.Update state_id content)) =
      some (HostMessage.Update state_id content) ∧
    parse_host_msg (encode_backend_msg (BackendMessage.ChangeState state_id content)) =
      some (HostMessage.ChangeState state_id content) ∧
    parse_host_msg (encode_backend_msg (BackendMessage.Disconnect reason)) =
      some (HostMessage.Disconnect reason) := by
  refine ⟨?_, ?_, rfl⟩
  · show some (HostMessage.Update (i64_as_i32 state_id) content) = _
    rw [i64_as_i32_eq_self state_id h1 h2]
  · show some (HostMessage.ChangeState (i64_as_i32 state_id) content) = _
    rw [i64_as_i32_eq_self state_id h1 h2]

/-- Witness for C10 at `state_id = 5`, `content = "c"`, `reason = "r"`. -/
theorem encode_parse_roundtrip_witness :
    parse_host_msg (encode_backend_msg (BackendMessage.Update 5 "c")) =
      some (HostMessage.Update 5 "c") ∧
    parse_host_msg (encode_backend_msg (BackendMessage.Disconnect "r")) =
      some (HostMessage.Disconnect "r") :=
  ⟨(encode_parse_roundtrip 5 "c" "r" (by decide) (by decide)).1,
   (encode_parse_roundtrip 5 "c" "r" (by decide) (by decide)).2.2⟩

/-- C9: a received frame whose JSON carries an unknown `type`, no `type` at
all, or a variant with a missing or wrongly-typed required field produces no
`HostMessage` (`parse_host_msg` returns `None`), and the read loop
`host_get_next_json` then continues with the next frame instead of returning
`None` — the return value that would make `host_socket_reader` close the
connection. -/
theorem malformed_host_frame_dropped (j : Json) (rest : List WireItem) :
    (get_string j "type" = none → parse_host_msg j = none) ∧
    (∀ t, get_string j "type" = some t → t ≠ "Disconnecting" → t ≠ "Update" →
      t ≠ "ChangeState" → parse_host_msg j = none) ∧
    (get_string j "type" = some "Disconnecting" → get_string j "reason" = none →
      parse_host_msg j = none) ∧
    (get_string j "type" = some "Update" →
      get_i32 j "state_id" = none ∨ get_string j "content" = none →
      parse_host_msg j = none) ∧
    (get_string j "type" = some "ChangeState" →
      get_i32 j "state_id" = none ∨ get_string j "content" = none →
      parse_host_msg j = none) ∧
    (parse_host_msg j = none →
      host_get_next_json (WireItem.frame j :: rest) = host_get_next_json rest) := by
  refine ⟨?_, ?_, ?_, ?_, ?_, ?_⟩
  · intro h
    simp [parse_host_msg, h]
  · intro t ht h1 h2 h3
    simp [parse_host_msg, ht, h1, h2, h3]
  · intro ht hr
    simp [parse_host_msg, ht, hr]
  · intro ht hf
    rcases hf with hf | hf
    · simp [parse_host_msg, ht, hf]
    · cases hsi : get_i32 j "state_id" with
      | none => simp [parse_host_msg, ht, hsi]
      | some v => simp [parse_host_msg, ht, hsi, hf]
  · intro ht hf
    rcases hf with hf | hf
    · simp [parse_host_msg, ht, hf]
    · cases hsi : get_i32 j "state_id" with
      | none => simp [parse_host_msg, ht, hsi]
      | some v => simp [parse_host_msg, ht, hsi, hf]
  · intro h
    simp [host_get_next_json, h]

/-- Witness for C9: a frame with the unknown type `"Bogus"` parses to
nothing, and the read loop skips it. -/
theorem malformed_host_frame_dropped_witness :
    parse_host_msg (Json.obj [("type", Json.str "Bogus")]) = none ∧
    host_get_next_json [WireItem.frame (Json.obj [("type", Json.str "Bogus")])] =
      host_get_next_json [] := by
  have h := malformed_host_frame_dropped (Json.obj [("type", Json.str "Bogus")]) []
  have hnone := h.2.1 "Bogus" (by decide) (by decide) (by decide) (by decide)
  exact ⟨hnone, h.2.2.2.2.2 hnone⟩

/-- C1 counterexample: process `HostConnected("a")` (initial-state send
succeeds) then `HostConnected("b")` (initial-state send to `"b"` fails:
server.rs lines 155-170 then return without touching the slot).  The slot
ends holding `"a"`, not the host of the most recently processed
`HostConnected` event, `"b"`. -/
theorem host_slot_not_last_event_cex :
    (run main_task_initial_state
        [Event.hostConnected "a" true, Event.hostConnected "b" false]).1.host =
      some "a" ∧
    ((some "a" : Option String) ≠ some "b") := by
  decide

/-- C1 amended: over any sequence of `HostConnected` events the registry and
`last_state` are untouched and the host slot (an `Option`, hence holding at
most one entry) ends holding the address of the most recently processed
`HostConnected` event *whose initial-state send succeeded* — in particular,
when the last event's send succeeds, that event's host.  (In every reachable
state `state` is `some _`: it starts as `Some("DUMMY")` and is only ever
overwritten with `Some`, so the initial-state send is always attempted.) -/
theorem host_slot_tracks_last_successful_connect (st : ServerState) (s : String)
    (hs : st.state = some s) (evs : List (String × Bool)) :
    (run st (evs.map (fun e => Event.hostConnected e.1 e.2))).1 =
      { st with host := evs.foldl (fun h e => if e.2 then some e.1 else h) st.host } ∧
    (∀ pre a, evs = pre ++ [(a, true)] →
      (run st (evs.map (fun e => Event.hostConnected e.1 e.2))).1.host = some a) := by
  have key : ∀ (evs : List (String × Bool)) (st : ServerState), st.state = some s →
      (run st (evs.map (fun e => Event.hostConnected e.1 e.2))).1 =
        { st with host := evs.foldl (fun h e => if e.2 then some e.1 else h) st.host } := by
    intro evs
    induction evs with
    | nil => intro st hst; rfl
    | cons e rest ih =>
      intro st hst
      obtain ⟨a, ok⟩ := e
      have hstep : step st (Event.hostConnected a ok) =
          ({ st with host := if ok then some a else st.host },
           (handle_host_connected st.state st.host a ok).2) := by
        simp only [step]
        rw [hst, handle_host_connected_host]
      simp only [List.map, run, hstep, List.foldl]
      have := ih { st with host := if ok then some a else st.host } hst
      rw [this]
  refine ⟨key evs st hs, ?_⟩
  intro pre a hpre
  rw [key evs st hs]
  subst hpre
  rw [List.foldl_append]
  simp

/-- Witness for C1 (amended): two successful connects leave the second host
in the slot. -/
theorem host_slot_tracks_last_successful_connect_witness :
    (run main_task_initial_state
        [Event.hostConnected "a" true, Event.hostConnected "b" true]).1.host =
      some "b" :=
  (host_slot_tracks_last_successful_connect main_task_initial_state "DUMMY" rfl
    [("a", true), ("b", true)]).2 [("a", true)] "b" rfl

/-- C2 counterexample: host `"newb"` connects while `"olda"` is current.
The handler's complete effect sequence is the initial-state write to the NEW
host, the bare `shutdown()` of the old host's write half, and the reader
spawn — no message of any kind (in particular no Disconnect with reason
"superseded by another host") is ever written to the old host, as the empty
filter shows. -/
theorem supersede_sends_no_disconnect_message_cex :
    step { clients := [], state := some "DUMMY", host := some "olda" }
        (Event.hostConnected "newb" true) =
      ({ clients := [], state := some "DUMMY", host := some "newb" },
       [Effect.hostWrite "newb" "DUMMY", Effect.hostShutdown "olda",
        Effect.spawnHostReader "newb"]) ∧
    ((step { clients := [], state := some "DUMMY", host := some "olda" }
        (Event.hostConnected "newb" true)).2.filter
      (fun eff => match eff with
        | Effect.hostWrite a _ => a == "olda"
        | _ => false)) = [] := by
  decide

/-- C2 amended: when `HostConnected` is processed while a host occupies the
slot (and the initial-state send to the new host succeeds), the old host's
transport is shut down before the slot is overwritten and the new host
becomes current — but the old host is sent no Disconnect message at all:
`handle_host_connected` calls `shutdown()` directly, never `write_to_socket`
on the old write half (the networking module's supersede reason constant,
whose text is "Another host connected" rather than "superseded by another
host", is never used by this actor). -/
theorem supersede_shuts_down_old_host_without_message (st : ServerState)
    (old fresh s : String) (hh : st.host = some old) (hs : st.state = some s) :
    step st (Event.hostConnected fresh true) =
      ({ st with host := some fresh },
       [Effect.hostWrite fresh s, Effect.hostShutdown old,
        Effect.spawnHostReader fresh]) := by
  simp [step, handle_host_connected, hh, hs]

/-- Witness for C2 (amended) at concrete addresses. -/
theorem supersede_shuts_down_old_host_without_message_witness :
    step { clients := [], state := some "DUMMY", host := some "olda" }
        (Event.hostConnected "newb" true) =
      ({ clients := [], state := some "DUMMY", host := some "newb" },
       [Effect.hostWrite "newb" "DUMMY", Effect.hostShutdown "olda",
        Effect.spawnHostReader "newb"]) :=
  supersede_shuts_down_old_host_without_message
    { clients := [], state := some "DUMMY", host := some "olda" }
    "olda" "newb" "DUMMY" rfl rfl

/-- C4 counterexample: a client connects while host `"h"` occupies the slot.
The handler's complete effect sequence is the initial-state send to the new
client and the reader spawn; the filter for host-directed writes is empty,
so no `ClientConnected{name, address}` notification (nor any other message)
is sent to the host. -/
theorem clientConnected_no_host_notification_cex :
    step { clients := [], state := some "DUMMY", host := some "h" }
        (Event.clientConnected "a" true true) =
      ({ clients := ["a"], state := some "DUMMY", host := some "h" },
       [Effect.clientSend "a" "DUMMY", Effect.spawnClientReader "a"]) ∧
    ((step { clients := [], state := some "DUMMY", host := some "h" }
        (Event.clientConnected "a" true true)).2.filter
      (fun eff => match eff with
        | Effect.hostWrite _ _ => true
        | _ => false)) = [] := by
  decide

/-- C4 amended: handling `ClientConnected` never touches the host: whatever
the state, the handshake outcome and the send outcome, the handler performs
no host-directed effect (no write, no shutdown) and leaves the host slot
unchanged — `handle_client_connected` is not even passed the host slot. -/
theorem clientConnected_sends_nothing_to_host (st : ServerState) (a : String)
    (handshake_ok send_ok : Bool) :
    ((step st (Event.clientConnected a handshake_ok send_ok)).2.all
      (fun eff => match eff with
        | Effect.hostWrite _ _ => false
        | Effect.hostShutdown _ => false
        | _ => true)) = true ∧
    (step st (Event.clientConnected a handshake_ok send_ok)).1.host = st.host := by
  cases hst : st.state <;> cases handshake_ok <;> cases send_ok <;>
    simp [step, handle_client_connected, hst]

/-- C5 counterexample: host `"h"` broadcasts `"m1"` to registry
`["a", "b"]` and the send to `"a"` fails.  The registry is unchanged
(`"a"` is NOT removed), the effects are exactly the two send attempts — no
close of `"a"`'s connection and no ClientClosed event is emitted — and a
subsequent broadcast of `"m2"` still targets `"a"`. -/
theorem broadcast_failure_client_not_removed_cex :
    (step { clients := ["a", "b"], state := some "DUMMY", host := some "h" }
        (Event.hostUpdate "h" "m1" (fun c => c == "a"))).1 =
      { clients := ["a", "b"], state := some "DUMMY", host := some "h" } ∧
    (step { clients := ["a", "b"], state := some "DUMMY", host := some "h" }
        (Event.hostUpdate "h" "m1" (fun c => c == "a"))).2 =
      [Effect.clientSend "a" "m1", Effect.clientSend "b" "m1"] ∧
    Effect.clientSend "a" "m2" ∈
      (step { clients := ["a", "b"], state := some "DUMMY", host := some "h" }
        (Event.hostUpdate "h" "m2" (fun c => c == "a"))).2 := by
  decide

/-- C5 amended: an individual send failure during a broadcast — whether the
broadcast is `HostUpdate` or `HostChangeState` handling — is only logged,
whatever `send_fails` is.  `HostUpdate` from the current host returns the
server state completely unchanged, and `HostChangeState` changes nothing
except overwriting `last_state` with the broadcast payload; in both cases
the failing client is NOT removed from the registry (so subsequent
broadcasts still target it), no connection is closed, no `ClientClosed`
event is emitted, and the effects are exactly one send attempt per
registered client. -/
theorem broadcast_failure_only_logged (st : ServerState) (h msg : String)
    (send_fails : String → Bool) (hh : st.host = some h) :
    step st (Event.hostUpdate h msg send_fails) =
      (st, st.clients.map (fun c => Effect.clientSend c msg)) ∧
    step st (Event.hostChangeState h msg send_fails) =
      ({ st with state := some msg },
       st.clients.map (fun c => Effect.clientSend c msg)) := by
  constructor
  · simp [step, handle_host_update, hh, write_to_all_clients_eq_map]
  · simp [step, handle_host_change_state, hh, write_to_all_clients_eq_map]

/-- Witness for C5 (amended) at a concrete registry with a failing client,
for both broadcast kinds. -/
theorem broadcast_failure_only_logged_witness :
    step { clients := ["a", "b"], state := some "DUMMY", host := some "h" }
        (Event.hostUpdate "h" "m1" (fun c => c == "a")) =
      ({ clients := ["a", "b"], state := some "DUMMY", host := some "h" },
       [Effect.clientSend "a" "m1", Effect.clientSend "b" "m1"]) ∧
    step { clients := ["a", "b"], state := some "DUMMY", host := some "h" }
        (Event.hostChangeState "h" "m1" (fun c => c == "a")) =
      ({ clients := ["a", "b"], state := some "m1", host := some "h" },
       [Effect.clientSend "a" "m1", Effect.clientSend "b" "m1"]) :=
  broadcast_failure_only_logged
    { clients := ["a", "b"], state := some "DUMMY", host := some "h" }
    "h" "m1" (fun c => c == "a") rfl

/-- C7 counterexample: registered client `"addr1"` sends the text `"42"`
while host `"h"` is connected.  The handler's one and only effect is
`write_to_socket(host, "42")`: the host receives the raw four characters of
the client's frame (the source even carries the comment
`// TODO add client address to json`), not an
`Input{input:"42", name:"Ada", address:"addr1"}` object — the registry of
this actor stores no display names at all, so no name could be attached. -/
theorem client_input_forwarded_raw_cex :
    step { clients := ["addr1"], state := some "DUMMY", host := some "h" }
        (Event.clientInput "addr1" (WsMessage.text "42")) =
      ({ clients := ["addr1"], state := some "DUMMY", host := some "h" },
       [Effect.hostWrite "h" "42"]) := by
  decide

/-- C7 amended: for a `ClientInput` whose address is registered, whose
payload is text and while a host is present, the actor forwards the client's
raw text content unchanged to the host — no wrapping into an `Input` message
and no name/address metadata (none exists in this registry) — and mutates
nothing. -/
theorem client_input_forwards_raw_content (st : ServerState)
    (a content h : String) (ha : a ∈ st.clients) (hh : st.host = some h) :
    step st (Event.clientInput a (WsMessage.text content)) =
      (st, [Effect.hostWrite h content]) := by
  simp [step, handle_client_input, ha, hh]

/-- Witness for C7 (amended) at the claim's own concrete input. -/
theorem client_input_forwards_raw_content_witness :
    step { clients := ["addr1"], state := some "DUMMY", host := some "h" }
        (Event.clientInput "addr1" (WsMessage.text "42")) =
      ({ clients := ["addr1"], state := some "DUMMY", host := some "h" },
       [Effect.hostWrite "h" "42"]) :=
  client_input_forwards_raw_content
    { clients := ["addr1"], state := some "DUMMY", host := some "h" }
    "addr1" "42" "h" (by decide) rfl
